import Mathlib

/-!
Shallow embedding of the directive-compiler logic of the PAN-OS upgrade
assurance integration (`PAN_OS_Upgrade_Assurance.py`): the readiness-check
directive assembly in `run_readiness_checks`, the snapshot-comparison
directive assembly in `compare_snapshots`, the session-string parser
`parse_session`, and the command-level argument renaming and ARP-address
validation in `command_run_readiness_checks`.  The external evaluator calls
(`CheckFirewall.run_readiness_checks`, `SnapshotCompare.compare_snapshots`)
are outside the modelled slice; the functions here return the directive
lists that the Python code hands to those evaluators.
-/

namespace PanosAssurance

/-- Dynamic value mirroring the Python objects that make up a directive:
strings, integers, lists, and (ordered) string-keyed mappings.  A bare
directive is `Val.s name`; a parameterized directive is a single-entry
mapping `Val.o [(name, opts)]`. -/
inductive Val where
  | s (x : String)
  | i (n : Int)
  | l (xs : List Val)
  | o (kvs : List (String × Val))

instance (o : Option Val) : Decidable (o = none) :=
  Option.decidable_eq_none

/-- Python optional-int argument as the compiler receives it: `None`, an
`int`, or a value of some other runtime type (so that the source's
`isinstance(x, int)` tests can be modelled faithfully). -/
inductive PyOptInt where
  | vnone
  | vint (n : Int)
  | vother

/-- Truthiness of a Python `Optional[str]`: `None` and the empty string are
falsy, every other string is truthy. -/
def strTruthy : Option String → Bool
  | none => false
  | some s => !(s == "")

/-- Python `isinstance(x, int) and x >= 0`. -/
def PyOptInt.isNonnegInt : PyOptInt → Bool
  | .vint n => decide (0 ≤ n)
  | _ => false

/-- Python `isinstance(x, int) and x > 0`. -/
def PyOptInt.isPosInt : PyOptInt → Bool
  | .vint n => decide (0 < n)
  | _ => false

/-- Integer payload of a `PyOptInt` (only used under an `isinstance` guard). -/
def PyOptInt.getInt : PyOptInt → Int
  | .vint n => n
  | _ => 0

/-- Helper for `splitOnChar`: accumulates the current field in reverse. -/
def splitOnCharAux (sep : Char) : List Char → List Char → List String
  | [], acc => [String.mk acc.reverse]
  | c :: cs, acc =>
    if c = sep then String.mk acc.reverse :: splitOnCharAux sep cs []
    else splitOnCharAux sep cs (c :: acc)

/-- Python `str.split(sep)` for a single-character separator: splits at every
occurrence, keeping empty fields (so `"".split(sep) == [""]`). -/
def splitOnChar (sep : Char) (s : String) : List String :=
  splitOnCharAux sep s.data []

/-- Translation of `parse_session` (source lines 52-58): unpacking
`session_str.split("/")` into exactly three fields succeeds, any other field
count raises `ValueError` (modelled as `none`). -/
def parse_session (session_str : String) : Option Val :=
  match splitOnChar '/' session_str with
  | [source, destination, port] =>
    some (.o [("source", .s source), ("destination", .s destination),
              ("dest_port", .s port)])
  | _ => none

/-- Numeric value of a digit string (digits only, by construction of use). -/
def decimal_value (cs : List Char) : Nat :=
  cs.foldl (fun n c => n * 10 + (c.toNat - 48)) 0

/-- One dotted-quad field: non-empty, all digits, value at most 255. -/
def is_ip_octet (p : String) : Bool :=
  !p.data.isEmpty && p.data.all (fun c => c.isDigit) && decimal_value p.data ≤ 255

/-- Modelled from the spec: `is_ip_valid` is imported by the integration from
the host platform's common library and is not part of this repository's
sources.  The spec requires a syntactically valid IPv4 address, i.e. four
dot-separated decimal fields each in the range 0..255. -/
def is_ip_valid (ip : String) : Bool :=
  match splitOnChar '.' ip with
  | [a, b, c, d] => is_ip_octet a && is_ip_octet b && is_ip_octet c && is_ip_octet d
  | _ => false

/-- Parameterized directive `{'content_version': {'version': v}}`. -/
def content_version_directive (v : String) : Val :=
  .o [("content_version", .o [("version", .s v)])]

/-- Parameterized directive `{'free_disk_space': {'image_version': v}}`. -/
def free_disk_space_directive (v : String) : Val :=
  .o [("free_disk_space", .o [("image_version", .s v)])]

/-- Parameterized directive `{'planes_clock_sync': {'diff_threshold': n}}`. -/
def planes_clock_sync_directive (n : Int) : Val :=
  .o [("planes_clock_sync", .o [("diff_threshold", .i n)])]

/-- Parameterized directive `{'ip_sec_tunnel_status': {'tunnel_name': v}}`. -/
def ip_sec_tunnel_status_directive (v : String) : Val :=
  .o [("ip_sec_tunnel_status", .o [("tunnel_name", .s v)])]

/-- Parameterized directive `{'session_exist': parsed}`. -/
def session_exist_directive (v : Val) : Val :=
  .o [("session_exist", v)]

/-- Parameterized directive `{'arp_entry_exist': {'ip': v}}` (note the
evaluator-facing key has no trailing `s`). -/
def arp_entry_exist_directive (v : String) : Val :=
  .o [("arp_entry_exist", .o [("ip", .s v)])]

/-- Default check list substituted when the caller supplies no checks
(source lines 111-121); `ha` is appended iff the firewall reports
`get_ha_configuration().get('enabled') == 'yes'`, which is modelled by the
boolean `ha_enabled`. -/
def default_check_list (ha_enabled : Bool) : List String :=
  ["panorama", "ntp_sync", "candidate_config", "active_support"]
    ++ (if ha_enabled then ["ha"] else [])

/-- The check list actually worked on: the caller's list, or the defaults if
the caller's list is empty (Python `if not check_list`). -/
def effective_check_list (ha_enabled : Bool) (check_list : List String) : List String :=
  if check_list.isEmpty then default_check_list ha_enabled else check_list

/-- Source lines 126-130: promote `content_version` to a parameterized
directive when `min_content_version` is truthy, removing the bare
identifier; otherwise leave the bare identifier (latest-version check). -/
def step_content_version (min_content_version : Option String)
    (st : List String × List Val) : List String × List Val :=
  if "content_version" ∈ st.1 then
    if strTruthy min_content_version then
      (st.1.erase "content_version",
       st.2 ++ [content_version_directive (min_content_version.getD "")])
    else st
  else st

/-- Source lines 132-139: with a truthy `candidate_version` append the
parameterized disk-space directive to the custom checks, otherwise append
the bare identifier to the check list. -/
def step_free_disk_space (candidate_version : Option String)
    (st : List String × List Val) : List String × List Val :=
  if strTruthy candidate_version then
    (st.1, st.2 ++ [free_disk_space_directive (candidate_version.getD "")])
  else
    (st.1 ++ ["free_disk_space"], st.2)

/-- Source lines 141-148: if `planes_clock_sync` is requested, append the
parameterized directive when `dp_mp_clock_diff` is a non-negative int, and
remove the bare identifier either way. -/
def step_planes_clock_sync (dp_mp_clock_diff : PyOptInt)
    (st : List String × List Val) : List String × List Val :=
  if "planes_clock_sync" ∈ st.1 then
    (st.1.erase "planes_clock_sync",
     if dp_mp_clock_diff.isNonnegInt then
       st.2 ++ [planes_clock_sync_directive dp_mp_clock_diff.getInt]
     else st.2)
  else st

/-- Source lines 150-157: if `ip_sec_tunnel_status` is requested, append the
parameterized directive when a tunnel name is supplied, and remove the bare
identifier either way. -/
def step_ip_sec_tunnel_status (ipsec_tunnel_status : Option String)
    (st : List String × List Val) : List String × List Val :=
  if "ip_sec_tunnel_status" ∈ st.1 then
    (st.1.erase "ip_sec_tunnel_status",
     if strTruthy ipsec_tunnel_status then
       st.2 ++ [ip_sec_tunnel_status_directive (ipsec_tunnel_status.getD "")]
     else st.2)
  else st

/-- Source lines 159-170: if `session_exist` is requested and a session
string is supplied, parse it (raising `ValueError` on a wrong field count)
and append the parameterized directive; the bare identifier is removed in
every non-error path. -/
def step_session_exist (check_session_exists : Option String)
    (st : List String × List Val) : Except String (List String × List Val) :=
  if "session_exist" ∈ st.1 then
    if strTruthy check_session_exists then
      match parse_session (check_session_exists.getD "") with
      | none =>
        .error ((check_session_exists.getD "")
          ++ " is not a valid session string. Must be source/destination/port.")
      | some v =>
        .ok (st.1.erase "session_exist", st.2 ++ [session_exist_directive v])
    else
      .ok (st.1.erase "session_exist", st.2)
  else
    .ok st

/-- Source lines 172-179: if `arp_entry_exists` is requested, append the
parameterized directive (keyed `arp_entry_exist`) when an address is
supplied, and remove the bare identifier either way. -/
def step_arp_entry_exists (arp_entry_exists : Option String)
    (st : List String × List Val) : List String × List Val :=
  if "arp_entry_exists" ∈ st.1 then
    (st.1.erase "arp_entry_exists",
     if strTruthy arp_entry_exists then
       st.2 ++ [arp_entry_exist_directive (arp_entry_exists.getD "")]
     else st.2)
  else st

/-- Translation of `run_readiness_checks` (source lines 83-186) up to the
final `check_list + custom_checks` concatenation: returns the mutated
`check_list` together with the accumulated `custom_checks`, or the
`ValueError` message raised for a malformed session string. -/
def run_readiness_checks_state (ha_enabled : Bool) (check_list : List String)
    (min_content_version candidate_version : Option String)
    (dp_mp_clock_diff : PyOptInt)
    (ipsec_tunnel_status check_session_exists arp_entry_exists : Option String) :
    Except String (List String × List Val) :=
  let check_list := effective_check_list ha_enabled check_list
  let st := step_content_version min_content_version (check_list, [])
  let st := step_free_disk_space candidate_version st
  let st := step_planes_clock_sync dp_mp_clock_diff st
  let st := step_ip_sec_tunnel_status ipsec_tunnel_status st
  (step_session_exist check_session_exists st).map
    (step_arp_entry_exists arp_entry_exists)

/-- The `check_config = check_list + custom_checks` list (source line 181)
that `run_readiness_checks` hands to the external evaluator, with remaining
bare identifiers first and the appended parameterized directives after. -/
def run_readiness_checks (ha_enabled : Bool) (check_list : List String)
    (min_content_version candidate_version : Option String)
    (dp_mp_clock_diff : PyOptInt)
    (ipsec_tunnel_status check_session_exists arp_entry_exists : Option String) :
    Except String (List Val) :=
  (run_readiness_checks_state ha_enabled check_list min_content_version
      candidate_version dp_mp_clock_diff ipsec_tunnel_status
      check_session_exists arp_entry_exists).map
    (fun st => st.1.map Val.s ++ st.2)

/-- User-facing identifier renames performed by
`command_run_readiness_checks` (source lines 340-355): `dp_mp_clock_diff`
to `planes_clock_sync`, `ipsec_tunnel` to `ip_sec_tunnel_status`, and `arp`
to `arp_entry_exists` (each by removing the first occurrence and appending
the evaluator-facing name). -/
def renamed_check_list (check_list : List String) : List String :=
  let check_list := if "dp_mp_clock_diff" ∈ check_list then
      check_list.erase "dp_mp_clock_diff" ++ ["planes_clock_sync"] else check_list
  let check_list := if "ipsec_tunnel" ∈ check_list then
      check_list.erase "ipsec_tunnel" ++ ["ip_sec_tunnel_status"] else check_list
  if "arp" ∈ check_list then
    check_list.erase "arp" ++ ["arp_entry_exists"] else check_list

/-- Translation of `command_run_readiness_checks` (source lines 311-363) up
to the call into `run_readiness_checks`: the user-facing identifier renames
and the IPv4 validation of a truthy `arp_entry_exists` argument. -/
def command_run_readiness_checks (ha_enabled : Bool) (check_list : List String)
    (min_content_version candidate_version : Option String)
    (dp_mp_clock_diff : PyOptInt)
    (ipsec_tunnel_status check_session_exists arp_entry_exists : Option String) :
    Except String (List Val) :=
  let check_list := renamed_check_list check_list
  if strTruthy arp_entry_exists && !is_ip_valid (arp_entry_exists.getD "") then
    .error ((arp_entry_exists.getD "") ++ " is not a valid IPv4 address.")
  else
    run_readiness_checks ha_enabled check_list min_content_version
      candidate_version dp_mp_clock_diff ipsec_tunnel_status
      check_session_exists arp_entry_exists

/-- Comparison directive `{'nics': {'count_change_threshold': 10}}`. -/
def nics_directive : Val :=
  .o [("nics", .o [("count_change_threshold", .i 10)])]

/-- Comparison directive for `routes`. -/
def routes_directive : Val :=
  .o [("routes", .o [("properties", .l [.s "!flags", .s "!age"]),
                     ("count_change_threshold", .i 10)])]

/-- Comparison directive for `license`. -/
def license_directive : Val :=
  .o [("license", .o [("properties", .l [.s "!serial", .s "!issued", .s "!authcode"])])]

/-- Comparison directive for `arp_table`. -/
def arp_table_directive : Val :=
  .o [("arp_table", .o [("properties", .l [.s "!ttl"]),
                        ("count_change_threshold", .i 10)])]

/-- Comparison directive for `session_stats` with both thresholds set to `t`. -/
def session_stats_directive (t : Int) : Val :=
  .o [("session_stats", .o [("thresholds",
        .l [.o [("num-max", .i t)], .o [("num-tcp", .i t)]])])]

/-- Comparison directive for `ip_sec_tunnels`. -/
def ip_sec_tunnels_directive : Val :=
  .o [("ip_sec_tunnels", .o [("properties", .l [.s "state"])])]

/-- Comparison directive for `bgp_peers`. -/
def bgp_peers_directive : Val :=
  .o [("bgp_peers", .o [("properties", .l [.s "status"])])]

/-- Default snapshot list substituted when the caller supplies none
(source lines 203-213); note it does not include `bgp_peers`. -/
def default_snapshot_list : List String :=
  ["nics", "routes", "license", "arp_table", "content_version",
   "session_stats", "ip_sec_tunnels"]

/-- Translation of the `snapshot_comparisons` construction in
`compare_snapshots` (source lines 203-284): the directive list handed to the
external `SnapshotCompare.compare_snapshots` evaluator. -/
def compare_snapshots_config (snapshot_list : List String)
    (session_stats_threshold : PyOptInt) : List Val :=
  let snapshot_list := if snapshot_list.isEmpty then default_snapshot_list else snapshot_list
  let cmp : List Val := []
  let cmp := if "nics" ∈ snapshot_list then cmp ++ [nics_directive] else cmp
  let cmp := if "routes" ∈ snapshot_list then cmp ++ [routes_directive] else cmp
  let cmp := if "license" ∈ snapshot_list then cmp ++ [license_directive] else cmp
  let cmp := if "arp_table" ∈ snapshot_list then cmp ++ [arp_table_directive] else cmp
  let cmp := if "content_version" ∈ snapshot_list then cmp ++ [Val.s "content_version"] else cmp
  let cmp := if "session_stats" ∈ snapshot_list then
      if session_stats_threshold.isPosInt then
        cmp ++ [session_stats_directive session_stats_threshold.getInt]
      else
        cmp ++ [session_stats_directive 10]
    else cmp
  let cmp := if "ip_sec_tunnels" ∈ snapshot_list then cmp ++ [ip_sec_tunnels_directive] else cmp
  let cmp := if "bgp_peers" ∈ snapshot_list then cmp ++ [bgp_peers_directive] else cmp
  cmp

/-- Head identifier of a directive: the name of a bare directive, or the key
of a single-entry parameterized directive. -/
def directive_name : Val → Option String
  | .s n => some n
  | .o [(n, _)] => some n
  | _ => none

/-- Whether a directive refers to the check or comparison `n` (bare or
parameterized). -/
def mentions (n : String) (d : Val) : Bool :=
  directive_name d == some n

/-- The fixed canonical order in which `compare_snapshots` tests for
snapshot identifiers. -/
def canonical_snapshot_order : List String :=
  ["nics", "routes", "license", "arp_table", "content_version",
   "session_stats", "ip_sec_tunnels", "bgp_peers"]

/-- Session-stats threshold actually used: the supplied value when it is a
positive int, 10 otherwise. -/
def threshold_value (t : PyOptInt) : Int :=
  if t.isPosInt then t.getInt else 10

/-- Directive emitted by `compare_snapshots` for each canonical identifier. -/
def snapshot_directive (t : PyOptInt) : String → Val
  | "nics" => nics_directive
  | "routes" => routes_directive
  | "license" => license_directive
  | "arp_table" => arp_table_directive
  | "content_version" => Val.s "content_version"
  | "session_stats" => session_stats_directive (threshold_value t)
  | "ip_sec_tunnels" => ip_sec_tunnels_directive
  | "bgp_peers" => bgp_peers_directive
  | n => Val.s n

/-- Directives contributed by the session-exist step when a session string
parses: a singleton on success, nothing on the (excluded) parse failure. -/
def session_parsed_directives (check_session_exists : Option String) : List Val :=
  match parse_session (check_session_exists.getD "") with
  | some v => [session_exist_directive v]
  | none => []

/-- Closed form of the check list left after all custom-check steps ran on
the effective list `cl0` (derived from the step functions; used to reason
about `run_readiness_checks_state`). -/
def final_check_list (cl0 : List String) (mcv cand : Option String) : List String :=
  (((((if ("content_version" ∈ cl0) ∧ strTruthy mcv then
          cl0.erase "content_version" else cl0)
      ++ (if strTruthy cand then [] else ["free_disk_space"])).erase
      "planes_clock_sync").erase "ip_sec_tunnel_status").erase
      "session_exist").erase "arp_entry_exists"

/-- Closed form of the custom-check directive list accumulated by the steps
of `run_readiness_checks_state` on the effective list `cl0`. -/
def final_custom_checks (cl0 : List String) (mcv cand : Option String)
    (dmp : PyOptInt) (its cse aee : Option String) : List Val :=
  (if ("content_version" ∈ cl0) ∧ strTruthy mcv then
    [content_version_directive (mcv.getD "")] else [])
  ++ (if strTruthy cand then [free_disk_space_directive (cand.getD "")] else [])
  ++ (if ("planes_clock_sync" ∈ cl0) ∧ dmp.isNonnegInt then
    [planes_clock_sync_directive dmp.getInt] else [])
  ++ (if ("ip_sec_tunnel_status" ∈ cl0) ∧ strTruthy its then
    [ip_sec_tunnel_status_directive (its.getD "")] else [])
  ++ (if ("session_exist" ∈ cl0) ∧ strTruthy cse then
    session_parsed_directives cse else [])
  ++ (if ("arp_entry_exists" ∈ cl0) ∧ strTruthy aee then
    [arp_entry_exist_directive (aee.getD "")] else [])

/-- The `ValueError` message raised for a malformed session string. -/
def session_error_message (cse : Option String) : String :=
  (cse.getD "") ++ " is not a valid session string. Must be source/destination/port."

theorem step_content_version_eq (mcv : Option String) (cl : List String) (cc : List Val) :
    step_content_version mcv (cl, cc) =
      ((if ("content_version" ∈ cl) ∧ strTruthy mcv then
          cl.erase "content_version" else cl),
       cc ++ (if ("content_version" ∈ cl) ∧ strTruthy mcv then
          [content_version_directive (mcv.getD "")] else [])) := by
  by_cases h1 : "content_version" ∈ cl <;> by_cases h2 : strTruthy mcv <;>
    simp [step_content_version, h1, h2]

theorem step_free_disk_space_eq (cand : Option String) (cl : List String) (cc : List Val) :
    step_free_disk_space cand (cl, cc) =
      (cl ++ (if strTruthy cand then [] else ["free_disk_space"]),
       cc ++ (if strTruthy cand then
          [free_disk_space_directive (cand.getD "")] else [])) := by
  by_cases h : strTruthy cand <;> simp [step_free_disk_space, h]

theorem step_planes_clock_sync_eq (dmp : PyOptInt) (cl : List String) (cc : List Val) :
    step_planes_clock_sync dmp (cl, cc) =
      (cl.erase "planes_clock_sync",
       cc ++ (if ("planes_clock_sync" ∈ cl) ∧ dmp.isNonnegInt then
          [planes_clock_sync_directive dmp.getInt] else [])) := by
  by_cases h1 : "planes_clock_sync" ∈ cl
  · by_cases h2 : dmp.isNonnegInt <;> simp [step_planes_clock_sync, h1, h2]
  · simp [step_planes_clock_sync, h1, List.erase_of_not_mem h1]

theorem step_ip_sec_tunnel_status_eq (its : Option String) (cl : List String) (cc : List Val) :
    step_ip_sec_tunnel_status its (cl, cc) =
      (cl.erase "ip_sec_tunnel_status",
       cc ++ (if ("ip_sec_tunnel_status" ∈ cl) ∧ strTruthy its then
          [ip_sec_tunnel_status_directive (its.getD "")] else [])) := by
  by_cases h1 : "ip_sec_tunnel_status" ∈ cl
  · by_cases h2 : strTruthy its <;> simp [step_ip_sec_tunnel_status, h1, h2]
  · simp [step_ip_sec_tunnel_status, h1, List.erase_of_not_mem h1]

theorem step_arp_entry_exists_eq (aee : Option String) (cl : List String) (cc : List Val) :
    step_arp_entry_exists aee (cl, cc) =
      (cl.erase "arp_entry_exists",
       cc ++ (if ("arp_entry_exists" ∈ cl) ∧ strTruthy aee then
          [arp_entry_exist_directive (aee.getD "")] else [])) := by
  by_cases h1 : "arp_entry_exists" ∈ cl
  · by_cases h2 : strTruthy aee <;> simp [step_arp_entry_exists, h1, h2]
  · simp [step_arp_entry_exists, h1, List.erase_of_not_mem h1]

theorem step_session_exist_eq (cse : Option String) (cl : List String) (cc : List Val) :
    step_session_exist cse (cl, cc) =
      (if ("session_exist" ∈ cl) ∧ strTruthy cse ∧ parse_session (cse.getD "") = none then
        .error (session_error_message cse)
      else
        .ok (cl.erase "session_exist",
             cc ++ (if ("session_exist" ∈ cl) ∧ strTruthy cse then
                session_parsed_directives cse else []))) := by
  by_cases h1 : "session_exist" ∈ cl
  · by_cases h2 : strTruthy cse
    · cases h3 : parse_session (cse.getD "") with
      | none =>
        simp [step_session_exist, h1, h2, h3, session_error_message]
      | some v =>
        simp [step_session_exist, h1, h2, h3, session_parsed_directives]
    · simp [step_session_exist, h1, h2]
  · simp [step_session_exist, h1, List.erase_of_not_mem h1]

theorem mem_erase_ne {x y : String} (h : x ≠ y) (l : List String) :
    (x ∈ l.erase y) ↔ x ∈ l :=
  List.mem_erase_of_ne h

theorem mem_cl1_iff (x : String) (h1 : x ≠ "content_version")
    (h2 : x ≠ "free_disk_space") (cl0 : List String) (mcv cand : Option String) :
    (x ∈ ((if ("content_version" ∈ cl0) ∧ strTruthy mcv then
        cl0.erase "content_version" else cl0)
      ++ (if strTruthy cand then [] else ["free_disk_space"]))) ↔ x ∈ cl0 := by
  by_cases hA : ("content_version" ∈ cl0) ∧ strTruthy mcv <;>
    by_cases hB : strTruthy cand <;>
      simp [hA, hB, List.mem_erase_of_ne h1, h2]

theorem run_readiness_checks_state_ok (ha : Bool) (cl : List String)
    (mcv cand : Option String) (dmp : PyOptInt) (its cse aee : Option String)
    (h : ¬ ("session_exist" ∈ effective_check_list ha cl ∧ strTruthy cse ∧
            parse_session (cse.getD "") = none)) :
    run_readiness_checks_state ha cl mcv cand dmp its cse aee =
      .ok (final_check_list (effective_check_list ha cl) mcv cand,
           final_custom_checks (effective_check_list ha cl) mcv cand dmp its cse aee) := by
  simp only [run_readiness_checks_state]
  set A := effective_check_list ha cl with hA
  rw [step_content_version_eq, step_free_disk_space_eq, step_planes_clock_sync_eq,
      step_ip_sec_tunnel_status_eq, step_session_exist_eq]
  simp only [mem_cl1_iff "planes_clock_sync" (by decide) (by decide),
             mem_cl1_iff "ip_sec_tunnel_status" (by decide) (by decide),
             mem_cl1_iff "session_exist" (by decide) (by decide),
             mem_cl1_iff "arp_entry_exists" (by decide) (by decide),
             mem_erase_ne (show ("ip_sec_tunnel_status" : String) ≠ "planes_clock_sync" by decide),
             mem_erase_ne (show ("session_exist" : String) ≠ "planes_clock_sync" by decide),
             mem_erase_ne (show ("session_exist" : String) ≠ "ip_sec_tunnel_status" by decide),
             mem_erase_ne (show ("arp_entry_exists" : String) ≠ "planes_clock_sync" by decide),
             mem_erase_ne (show ("arp_entry_exists" : String) ≠ "ip_sec_tunnel_status" by decide),
             mem_erase_ne (show ("arp_entry_exists" : String) ≠ "session_exist" by decide)]
  rw [if_neg h]
  simp only [Except.map]
  rw [step_arp_entry_exists_eq]
  simp only [mem_cl1_iff "arp_entry_exists" (by decide) (by decide),
             mem_erase_ne (show ("arp_entry_exists" : String) ≠ "planes_clock_sync" by decide),
             mem_erase_ne (show ("arp_entry_exists" : String) ≠ "ip_sec_tunnel_status" by decide),
             mem_erase_ne (show ("arp_entry_exists" : String) ≠ "session_exist" by decide)]
  simp only [final_check_list, final_custom_checks, List.nil_append, List.append_assoc]

theorem run_readiness_checks_state_err (ha : Bool) (cl : List String)
    (mcv cand : Option String) (dmp : PyOptInt) (its cse aee : Option String)
    (h1 : "session_exist" ∈ effective_check_list ha cl) (h2 : strTruthy cse)
    (h3 : parse_session (cse.getD "") = none) :
    run_readiness_checks_state ha cl mcv cand dmp its cse aee =
      .error (session_error_message cse) := by
  simp only [run_readiness_checks_state]
  set A := effective_check_list ha cl with hA
  rw [step_content_version_eq, step_free_disk_space_eq, step_planes_clock_sync_eq,
      step_ip_sec_tunnel_status_eq, step_session_exist_eq]
  simp only [mem_cl1_iff "planes_clock_sync" (by decide) (by decide),
             mem_cl1_iff "ip_sec_tunnel_status" (by decide) (by decide),
             mem_cl1_iff "session_exist" (by decide) (by decide),
             mem_erase_ne (show ("session_exist" : String) ≠ "planes_clock_sync" by decide),
             mem_erase_ne (show ("session_exist" : String) ≠ "ip_sec_tunnel_status" by decide)]
  rw [if_pos ⟨h1, h2, h3⟩]
  simp only [Except.map]

theorem run_readiness_checks_ok_eq (ha : Bool) (cl : List String)
    (mcv cand : Option String) (dmp : PyOptInt) (its cse aee : Option String)
    (out : List Val)
    (h : run_readiness_checks ha cl mcv cand dmp its cse aee = .ok out) :
    out = (final_check_list (effective_check_list ha cl) mcv cand).map Val.s
          ++ final_custom_checks (effective_check_list ha cl) mcv cand dmp its cse aee := by
  by_cases hb : ("session_exist" ∈ effective_check_list ha cl ∧ strTruthy cse ∧
      parse_session (cse.getD "") = none)
  · rw [run_readiness_checks,
        run_readiness_checks_state_err ha cl mcv cand dmp its cse aee hb.1 hb.2.1 hb.2.2] at h
    simp [Except.map] at h
  · rw [run_readiness_checks, run_readiness_checks_state_ok ha cl mcv cand dmp its cse aee hb] at h
    simp only [Except.map, Except.ok.injEq] at h
    exact h.symm

theorem filter_erase_neg {p : String → Bool} {b : String} (h : p b = false)
    (l : List String) : (l.erase b).filter p = l.filter p := by
  rw [← List.erase_filter]
  refine List.erase_of_not_mem (fun hm => ?_)
  have hpb := (List.mem_filter.mp hm).2
  rw [h] at hpb
  exact Bool.false_ne_true hpb

@[simp] theorem mentions_val_s (n x : String) : mentions n (Val.s x) = (x == n) := rfl

@[simp] theorem mentions_content_version_directive (n v : String) :
    mentions n (content_version_directive v) = ("content_version" == n) := rfl

@[simp] theorem mentions_free_disk_space_directive (n v : String) :
    mentions n (free_disk_space_directive v) = ("free_disk_space" == n) := rfl

@[simp] theorem mentions_planes_clock_sync_directive (n : String) (k : Int) :
    mentions n (planes_clock_sync_directive k) = ("planes_clock_sync" == n) := rfl

@[simp] theorem mentions_ip_sec_tunnel_status_directive (n v : String) :
    mentions n (ip_sec_tunnel_status_directive v) = ("ip_sec_tunnel_status" == n) := rfl

@[simp] theorem mentions_session_exist_directive (n : String) (v : Val) :
    mentions n (session_exist_directive v) = ("session_exist" == n) := rfl

@[simp] theorem mentions_arp_entry_exist_directive (n v : String) :
    mentions n (arp_entry_exist_directive v) = ("arp_entry_exist" == n) := rfl

@[simp] theorem mentions_nics_directive (n : String) :
    mentions n nics_directive = ("nics" == n) := rfl

@[simp] theorem mentions_routes_directive (n : String) :
    mentions n routes_directive = ("routes" == n) := rfl

@[simp] theorem mentions_license_directive (n : String) :
    mentions n license_directive = ("license" == n) := rfl

@[simp] theorem mentions_arp_table_directive (n : String) :
    mentions n arp_table_directive = ("arp_table" == n) := rfl

@[simp] theorem mentions_session_stats_directive (n : String) (k : Int) :
    mentions n (session_stats_directive k) = ("session_stats" == n) := rfl

@[simp] theorem mentions_ip_sec_tunnels_directive (n : String) :
    mentions n ip_sec_tunnels_directive = ("ip_sec_tunnels" == n) := rfl

@[simp] theorem mentions_bgp_peers_directive (n : String) :
    mentions n bgp_peers_directive = ("bgp_peers" == n) := rfl

theorem filter_mentions_session_parsed {n : String} (h : n ≠ "session_exist")
    (cse : Option String) :
    List.filter (mentions n) (session_parsed_directives cse) = [] := by
  unfold session_parsed_directives
  have hb : ("session_exist" == n) = false := by
    simp [beq_eq_false_iff_ne, Ne.symm h]
  cases hp : parse_session (cse.getD "") <;>
    simp [List.filter, hb]

theorem filter_mentions_map_s (n : String) (l : List String) :
    List.filter (mentions n) (l.map Val.s) = List.replicate (l.count n) (Val.s n) := by
  rw [List.filter_map]
  have hp : (mentions n ∘ Val.s) = (· == n) := rfl
  rw [hp, List.filter_beq, List.map_replicate]

theorem count_final_fds (cl0 : List String) (mcv cand : Option String) :
    (final_check_list cl0 mcv cand).count "free_disk_space" =
      cl0.count "free_disk_space" + (if strTruthy cand then 0 else 1) := by
  unfold final_check_list
  rw [List.count_erase_of_ne (show ("free_disk_space" : String) ≠ "arp_entry_exists" by decide),
      List.count_erase_of_ne (show ("free_disk_space" : String) ≠ "session_exist" by decide),
      List.count_erase_of_ne (show ("free_disk_space" : String) ≠ "ip_sec_tunnel_status" by decide),
      List.count_erase_of_ne (show ("free_disk_space" : String) ≠ "planes_clock_sync" by decide),
      List.count_append]
  by_cases hc : ("content_version" ∈ cl0) ∧ strTruthy mcv <;>
    by_cases hd : strTruthy cand <;>
      simp [hc, hd,
        List.count_erase_of_ne (show ("free_disk_space" : String) ≠ "content_version" by decide)]

theorem count_final_cv (cl0 : List String) (mcv cand : Option String) :
    (final_check_list cl0 mcv cand).count "content_version" =
      if ("content_version" ∈ cl0) ∧ strTruthy mcv then
        cl0.count "content_version" - 1 else cl0.count "content_version" := by
  unfold final_check_list
  rw [List.count_erase_of_ne (show ("content_version" : String) ≠ "arp_entry_exists" by decide),
      List.count_erase_of_ne (show ("content_version" : String) ≠ "session_exist" by decide),
      List.count_erase_of_ne (show ("content_version" : String) ≠ "ip_sec_tunnel_status" by decide),
      List.count_erase_of_ne (show ("content_version" : String) ≠ "planes_clock_sync" by decide),
      List.count_append]
  by_cases hc : ("content_version" ∈ cl0) ∧ strTruthy mcv <;>
    by_cases hd : strTruthy cand <;>
      simp [hc, hd, List.count_erase_self]

theorem count_final_pcs (cl0 : List String) (mcv cand : Option String) :
    (final_check_list cl0 mcv cand).count "planes_clock_sync" =
      cl0.count "planes_clock_sync" - 1 := by
  unfold final_check_list
  rw [List.count_erase_of_ne (show ("planes_clock_sync" : String) ≠ "arp_entry_exists" by decide),
      List.count_erase_of_ne (show ("planes_clock_sync" : String) ≠ "session_exist" by decide),
      List.count_erase_of_ne (show ("planes_clock_sync" : String) ≠ "ip_sec_tunnel_status" by decide),
      List.count_erase_self, List.count_append]
  by_cases hc : ("content_version" ∈ cl0) ∧ strTruthy mcv <;>
    by_cases hd : strTruthy cand <;>
      simp [hc, hd,
        List.count_erase_of_ne (show ("planes_clock_sync" : String) ≠ "content_version" by decide)]

theorem count_final_its (cl0 : List String) (mcv cand : Option String) :
    (final_check_list cl0 mcv cand).count "ip_sec_tunnel_status" =
      cl0.count "ip_sec_tunnel_status" - 1 := by
  unfold final_check_list
  rw [List.count_erase_of_ne (show ("ip_sec_tunnel_status" : String) ≠ "arp_entry_exists" by decide),
      List.count_erase_of_ne (show ("ip_sec_tunnel_status" : String) ≠ "session_exist" by decide),
      List.count_erase_self,
      List.count_erase_of_ne (show ("ip_sec_tunnel_status" : String) ≠ "planes_clock_sync" by decide),
      List.count_append]
  by_cases hc : ("content_version" ∈ cl0) ∧ strTruthy mcv <;>
    by_cases hd : strTruthy cand <;>
      simp [hc, hd,
        List.count_erase_of_ne (show ("ip_sec_tunnel_status" : String) ≠ "content_version" by decide)]

theorem count_final_se (cl0 : List String) (mcv cand : Option String) :
    (final_check_list cl0 mcv cand).count "session_exist" =
      cl0.count "session_exist" - 1 := by
  unfold final_check_list
  rw [List.count_erase_of_ne (show ("session_exist" : String) ≠ "arp_entry_exists" by decide),
      List.count_erase_self,
      List.count_erase_of_ne (show ("session_exist" : String) ≠ "ip_sec_tunnel_status" by decide),
      List.count_erase_of_ne (show ("session_exist" : String) ≠ "planes_clock_sync" by decide),
      List.count_append]
  by_cases hc : ("content_version" ∈ cl0) ∧ strTruthy mcv <;>
    by_cases hd : strTruthy cand <;>
      simp [hc, hd,
        List.count_erase_of_ne (show ("session_exist" : String) ≠ "content_version" by decide)]

theorem count_final_arp (cl0 : List String) (mcv cand : Option String) :
    (final_check_list cl0 mcv cand).count "arp_entry_exists" =
      cl0.count "arp_entry_exists" - 1 := by
  unfold final_check_list
  rw [List.count_erase_self,
      List.count_erase_of_ne (show ("arp_entry_exists" : String) ≠ "session_exist" by decide),
      List.count_erase_of_ne (show ("arp_entry_exists" : String) ≠ "ip_sec_tunnel_status" by decide),
      List.count_erase_of_ne (show ("arp_entry_exists" : String) ≠ "planes_clock_sync" by decide),
      List.count_append]
  by_cases hc : ("content_version" ∈ cl0) ∧ strTruthy mcv <;>
    by_cases hd : strTruthy cand <;>
      simp [hc, hd,
        List.count_erase_of_ne (show ("arp_entry_exists" : String) ≠ "content_version" by decide)]

theorem filter_custom_cv (cl0 : List String) (mcv cand : Option String)
    (dmp : PyOptInt) (its cse aee : Option String) :
    List.filter (mentions "content_version")
        (final_custom_checks cl0 mcv cand dmp its cse aee) =
      if ("content_version" ∈ cl0) ∧ strTruthy mcv then
        [content_version_directive (mcv.getD "")] else [] := by
  unfold final_custom_checks
  simp only [List.filter_append,
    apply_ite (List.filter (mentions "content_version")),
    filter_mentions_session_parsed (show ("content_version" : String) ≠ "session_exist" by decide)]
  simp [List.filter]

theorem filter_custom_fds (cl0 : List String) (mcv cand : Option String)
    (dmp : PyOptInt) (its cse aee : Option String) :
    List.filter (mentions "free_disk_space")
        (final_custom_checks cl0 mcv cand dmp its cse aee) =
      if strTruthy cand then [free_disk_space_directive (cand.getD "")] else [] := by
  unfold final_custom_checks
  simp only [List.filter_append,
    apply_ite (List.filter (mentions "free_disk_space")),
    filter_mentions_session_parsed (show ("free_disk_space" : String) ≠ "session_exist" by decide)]
  simp [List.filter]

theorem filter_custom_pcs (cl0 : List String) (mcv cand : Option String)
    (dmp : PyOptInt) (its cse aee : Option String) :
    List.filter (mentions "planes_clock_sync")
        (final_custom_checks cl0 mcv cand dmp its cse aee) =
      if ("planes_clock_sync" ∈ cl0) ∧ dmp.isNonnegInt then
        [planes_clock_sync_directive dmp.getInt] else [] := by
  unfold final_custom_checks
  simp only [List.filter_append,
    apply_ite (List.filter (mentions "planes_clock_sync")),
    filter_mentions_session_parsed (show ("planes_clock_sync" : String) ≠ "session_exist" by decide)]
  simp [List.filter]

theorem arp_mem_final_custom (cl0 : List String) (mcv cand : Option String)
    (dmp : PyOptInt) (its cse aee : Option String)
    (hmem : "arp_entry_exists" ∈ cl0) (haee : strTruthy aee) :
    arp_entry_exist_directive (aee.getD "") ∈
      final_custom_checks cl0 mcv cand dmp its cse aee := by
  unfold final_custom_checks
  simp [hmem, haee]

theorem effective_check_list_of_ne_nil {ha : Bool} {cl : List String} (h : cl ≠ []) :
    effective_check_list ha cl = cl := by
  unfold effective_check_list
  rw [if_neg]
  simp only [List.isEmpty_eq_true]
  exact h

/-- Claim C3: on an empty check list `run_readiness_checks` substitutes the
default list, so with HA disabled the evaluator input is exactly the five
bare identifiers `panorama, ntp_sync, candidate_config, active_support,
free_disk_space` in that order with no parameterized directive, and with HA
enabled the bare identifier `ha` additionally appears after
`active_support` and before the disk-space directive. -/
theorem C3_default_check_list_output :
    run_readiness_checks false [] none none .vnone none none none =
      .ok [Val.s "panorama", Val.s "ntp_sync", Val.s "candidate_config",
           Val.s "active_support", Val.s "free_disk_space"] ∧
    run_readiness_checks true [] none none .vnone none none none =
      .ok [Val.s "panorama", Val.s "ntp_sync", Val.s "candidate_config",
           Val.s "active_support", Val.s "ha", Val.s "free_disk_space"] :=
  ⟨rfl, rfl⟩

/-- Claim C1 counterexample: with `content_version` requested and no
`min_content_version`, the code keeps the bare `content_version` identifier
in the evaluator input (the check runs against the latest content version);
it is not dropped as the claim states. -/
theorem C1_counterexample :
    run_readiness_checks false ["content_version"] none none .vnone none none none =
      .ok [Val.s "content_version", Val.s "free_disk_space"] ∧
    Val.s "content_version" ∈ [Val.s "content_version", Val.s "free_disk_space"] :=
  ⟨rfl, List.mem_cons_self _ _⟩

/-- Claim C1 (amended): for a check list containing `content_version`
exactly once, if `min_content_version` is truthy the output contains the
parameterized `content_version` directive and no bare identifier, and if it
is not supplied the bare identifier remains in the output (latest-version
check) and no parameterized directive is emitted. -/
theorem C1_content_version_amended (ha : Bool) (cl : List String)
    (mcv cand : Option String) (dmp : PyOptInt) (its cse aee : Option String)
    (out : List Val)
    (hcount : cl.count "content_version" = 1)
    (h : run_readiness_checks ha cl mcv cand dmp its cse aee = .ok out) :
    List.filter (mentions "content_version") out =
      if strTruthy mcv then [content_version_directive (mcv.getD "")]
      else [Val.s "content_version"] := by
  have hmem : "content_version" ∈ cl := List.count_pos_iff.mp (by omega)
  have hne : cl ≠ [] := by
    intro he
    subst he
    simp at hcount
  have hA : effective_check_list ha cl = cl := effective_check_list_of_ne_nil hne
  rw [run_readiness_checks_ok_eq ha cl mcv cand dmp its cse aee out h,
      List.filter_append, filter_mentions_map_s, count_final_cv, filter_custom_cv,
      hA, hcount]
  by_cases ht : strTruthy mcv
  · simp [ht, hmem]
  · simp [ht]

/-- Claim C1 witness: a concrete run exercising the amended claim with
`min_content_version` supplied. -/
theorem C1_witness :
    (["content_version"] : List String).count "content_version" = 1 ∧
    run_readiness_checks false ["content_version"] (some "8421-7321") none
        .vnone none none none =
      .ok [Val.s "free_disk_space", content_version_directive "8421-7321"] ∧
    List.filter (mentions "content_version")
        [Val.s "free_disk_space", content_version_directive "8421-7321"] =
      (if strTruthy (some "8421-7321") then [content_version_directive "8421-7321"]
       else [Val.s "content_version"]) :=
  ⟨by decide, rfl,
   C1_content_version_amended false ["content_version"] (some "8421-7321")
     none .vnone none none none
     [Val.s "free_disk_space", content_version_directive "8421-7321"] (by decide) rfl⟩

/-- Claim C2 counterexample: when the caller's check list already contains
`free_disk_space` and `candidate_version` is supplied, both the bare
identifier and the parameterized directive appear in the output, so the
output does not contain exactly one `free_disk_space` directive. -/
theorem C2_counterexample :
    run_readiness_checks false ["free_disk_space"] none (some "10.2.3") .vnone
        none none none =
      .ok [Val.s "free_disk_space", free_disk_space_directive "10.2.3"] ∧
    List.countP (mentions "free_disk_space")
      [Val.s "free_disk_space", free_disk_space_directive "10.2.3"] = 2 :=
  ⟨rfl, rfl⟩

/-- Claim C2 (amended): when the caller's check list does not already
contain `free_disk_space`, the output contains exactly one disk-space
directive: the parameterized form iff `candidate_version` is truthy, the
bare identifier otherwise.  (If the caller's list does contain it, those
bare occurrences are retained in addition, so the check can be duplicated
though never suppressed.) -/
theorem C2_free_disk_space_amended (ha : Bool) (cl : List String)
    (mcv cand : Option String) (dmp : PyOptInt) (its cse aee : Option String)
    (out : List Val)
    (hmem : "free_disk_space" ∉ cl)
    (h : run_readiness_checks ha cl mcv cand dmp its cse aee = .ok out) :
    List.filter (mentions "free_disk_space") out =
      [if strTruthy cand then free_disk_space_directive (cand.getD "")
       else Val.s "free_disk_space"] := by
  have hA0 : (effective_check_list ha cl).count "free_disk_space" = 0 := by
    unfold effective_check_list
    by_cases he : cl.isEmpty
    · rw [if_pos he]
      cases ha <;> decide
    · rw [if_neg he]
      exact List.count_eq_zero.mpr hmem
  rw [run_readiness_checks_ok_eq ha cl mcv cand dmp its cse aee out h,
      List.filter_append, filter_mentions_map_s, count_final_fds, hA0,
      filter_custom_fds]
  by_cases ht : strTruthy cand <;> simp [ht]

/-- Claim C2 witness: a concrete run of the amended claim with
`candidate_version` supplied and the default check list. -/
theorem C2_witness :
    ("free_disk_space" ∉ ([] : List String)) ∧
    run_readiness_checks false [] none (some "10.2.3") .vnone none none none =
      .ok [Val.s "panorama", Val.s "ntp_sync", Val.s "candidate_config",
           Val.s "active_support", free_disk_space_directive "10.2.3"] ∧
    List.filter (mentions "free_disk_space")
        [Val.s "panorama", Val.s "ntp_sync", Val.s "candidate_config",
         Val.s "active_support", free_disk_space_directive "10.2.3"] =
      [if strTruthy (some "10.2.3") then free_disk_space_directive "10.2.3"
       else Val.s "free_disk_space"] :=
  ⟨by decide, rfl,
   C2_free_disk_space_amended false [] none (some "10.2.3") .vnone
     none none none
     [Val.s "panorama", Val.s "ntp_sync", Val.s "candidate_config",
      Val.s "active_support", free_disk_space_directive "10.2.3"] (by decide) rfl⟩

/-- Claim C8: for a check list containing `planes_clock_sync` (once, as a
set-like check list), the bare identifier is removed from the output, and
the parameterized `planes_clock_sync` directive appears (exactly once) iff
`dp_mp_clock_diff` is a non-negative integer; otherwise the check is
dropped entirely. -/
theorem C8_planes_clock_sync (ha : Bool) (cl : List String)
    (mcv cand : Option String) (dmp : PyOptInt) (its cse aee : Option String)
    (out : List Val)
    (hcount : cl.count "planes_clock_sync" = 1)
    (h : run_readiness_checks ha cl mcv cand dmp its cse aee = .ok out) :
    List.filter (mentions "planes_clock_sync") out =
      if dmp.isNonnegInt then [planes_clock_sync_directive dmp.getInt] else [] := by
  have hmem : "planes_clock_sync" ∈ cl := List.count_pos_iff.mp (by omega)
  have hne : cl ≠ [] := by
    intro he
    subst he
    simp at hcount
  have hA : effective_check_list ha cl = cl := effective_check_list_of_ne_nil hne
  rw [run_readiness_checks_ok_eq ha cl mcv cand dmp its cse aee out h,
      List.filter_append, filter_mentions_map_s, count_final_pcs, filter_custom_pcs,
      hA, hcount]
  by_cases hd : dmp.isNonnegInt <;> simp [hd, hmem]

theorem strTruthy_some_of_ne {s : String} (h : s ≠ "") :
    strTruthy (some s) = true := by
  simp [strTruthy, h]

theorem parse_session_none_of_length {s : String}
    (h : (splitOnChar '/' s).length ≠ 3) : parse_session s = none := by
  unfold parse_session
  rcases hl : splitOnChar '/' s with _ | ⟨a, _ | ⟨b, _ | ⟨c, _ | ⟨d, tl⟩⟩⟩⟩ <;>
    simp_all

theorem mem_renamed_check_list {cl : List String}
    (h : "arp_entry_exists" ∈ cl) :
    "arp_entry_exists" ∈ renamed_check_list cl := by
  have step : ∀ (old new : String) (l : List String), old ≠ "arp_entry_exists" →
      "arp_entry_exists" ∈ l →
      "arp_entry_exists" ∈ (if old ∈ l then l.erase old ++ [new] else l) := by
    intro old new l hno hl
    by_cases hm : old ∈ l
    · rw [if_pos hm]
      exact List.mem_append.mpr (Or.inl ((List.mem_erase_of_ne (Ne.symm hno)).mpr hl))
    · rw [if_neg hm]
      exact hl
  unfold renamed_check_list
  exact step "arp" "arp_entry_exists" _ (by decide)
    (step "ipsec_tunnel" "ip_sec_tunnel_status" _ (by decide)
      (step "dp_mp_clock_diff" "planes_clock_sync" _ (by decide) h))

/-- Claim C10: `run_readiness_checks` mutates the caller-supplied (non-empty)
check list: one occurrence of each of `planes_clock_sync`,
`ip_sec_tunnel_status`, `session_exist` and `arp_entry_exists` is removed
whenever present (and of `content_version` when `min_content_version` is
truthy), `free_disk_space` is appended exactly when `candidate_version` is
absent, and in every one of those mutating situations the final check list
differs from the list that was passed in. -/
theorem C10_check_list_mutation (ha : Bool) (cl : List String)
    (mcv cand : Option String) (dmp : PyOptInt) (its cse aee : Option String)
    (cl2 : List String) (cc2 : List Val)
    (hne : cl ≠ [])
    (h : run_readiness_checks_state ha cl mcv cand dmp its cse aee = .ok (cl2, cc2)) :
    (strTruthy mcv → cl2.count "content_version" = cl.count "content_version" - 1) ∧
    cl2.count "planes_clock_sync" = cl.count "planes_clock_sync" - 1 ∧
    cl2.count "ip_sec_tunnel_status" = cl.count "ip_sec_tunnel_status" - 1 ∧
    cl2.count "session_exist" = cl.count "session_exist" - 1 ∧
    cl2.count "arp_entry_exists" = cl.count "arp_entry_exists" - 1 ∧
    (¬ strTruthy cand → cl2.count "free_disk_space" = cl.count "free_disk_space" + 1) ∧
    (strTruthy cand → cl2.count "free_disk_space" = cl.count "free_disk_space") ∧
    (("planes_clock_sync" ∈ cl ∨ "ip_sec_tunnel_status" ∈ cl ∨
      "session_exist" ∈ cl ∨ "arp_entry_exists" ∈ cl ∨ ¬ strTruthy cand) →
      cl2 ≠ cl) := by
  have hA : effective_check_list ha cl = cl := effective_check_list_of_ne_nil hne
  by_cases hb : ("session_exist" ∈ effective_check_list ha cl ∧ strTruthy cse ∧
      parse_session (cse.getD "") = none)
  · rw [run_readiness_checks_state_err ha cl mcv cand dmp its cse aee
        hb.1 hb.2.1 hb.2.2] at h
    exact absurd h (by simp)
  · rw [run_readiness_checks_state_ok ha cl mcv cand dmp its cse aee hb, hA] at h
    simp only [Except.ok.injEq, Prod.mk.injEq] at h
    obtain ⟨h1, h2⟩ := h
    subst h1
    refine ⟨?_, ?_, ?_, ?_, ?_, ?_, ?_, ?_⟩
    · intro ht
      rw [count_final_cv]
      by_cases hm : "content_version" ∈ cl
      · simp [hm, ht]
      · simp [hm, ht, List.count_eq_zero.mpr hm]
    · exact count_final_pcs cl mcv cand
    · exact count_final_its cl mcv cand
    · exact count_final_se cl mcv cand
    · exact count_final_arp cl mcv cand
    · intro hc
      rw [count_final_fds]
      simp [hc]
    · intro hc
      rw [count_final_fds]
      simp [hc]
    · intro hdisj heq
      rcases hdisj with hm | hm | hm | hm | hc
      · have hx := count_final_pcs cl mcv cand
        rw [heq] at hx
        have hp := List.count_pos_iff.mpr hm
        omega
      · have hx := count_final_its cl mcv cand
        rw [heq] at hx
        have hp := List.count_pos_iff.mpr hm
        omega
      · have hx := count_final_se cl mcv cand
        rw [heq] at hx
        have hp := List.count_pos_iff.mpr hm
        omega
      · have hx := count_final_arp cl mcv cand
        rw [heq] at hx
        have hp := List.count_pos_iff.mpr hm
        omega
      · have hx := count_final_fds cl mcv cand
        rw [heq] at hx
        simp [hc] at hx

/-- Claim C10 witness: requesting `planes_clock_sync` with no parameters
leaves the caller's list changed (`planes_clock_sync` removed,
`free_disk_space` appended). -/
theorem C10_witness :
    (["planes_clock_sync"] : List String) ≠ [] ∧
    run_readiness_checks_state false ["planes_clock_sync"] none none .vnone
        none none none = .ok (["free_disk_space"], []) ∧
    (["free_disk_space"] : List String) ≠ ["planes_clock_sync"] :=
  ⟨by decide, rfl, by
    have h := C10_check_list_mutation false ["planes_clock_sync"] none none
      .vnone none none none ["free_disk_space"] [] (by decide) rfl
    exact h.2.2.2.2.2.2.2 (Or.inl (by decide))⟩

/-- Claim C6 counterexample: the empty string has a slash-field count of 1,
yet supplying it as `check_session_exists` with `session_exist` requested
does not raise: Python truthiness treats the empty string as an absent
parameter, so the check is silently dropped. -/
theorem C6_counterexample :
    (splitOnChar '/' "").length = 1 ∧
    run_readiness_checks false ["session_exist"] none none .vnone none
        (some "") none = .ok [Val.s "free_disk_space"] :=
  ⟨rfl, rfl⟩

/-- Claim C6 (amended): parsing `"10.10.10.10/8.8.8.8/443"` yields the
source/destination/dest_port mapping, and for every non-empty session
string whose slash-field count differs from three,
`run_readiness_checks` with `session_exist` in the check list raises an
input-validation error naming the offending value instead of returning a
directive list.  (The empty string is treated as an absent parameter and
the check is dropped.) -/
theorem C6_parse_session_amended :
    parse_session "10.10.10.10/8.8.8.8/443" =
      some (.o [("source", .s "10.10.10.10"), ("destination", .s "8.8.8.8"),
                ("dest_port", .s "443")]) ∧
    ∀ (s : String) (ha : Bool) (cl : List String) (mcv cand : Option String)
      (dmp : PyOptInt) (its aee : Option String),
      s ≠ "" → (splitOnChar '/' s).length ≠ 3 → "session_exist" ∈ cl →
      run_readiness_checks ha cl mcv cand dmp its (some s) aee =
        .error (s ++ " is not a valid session string. Must be source/destination/port.") := by
  refine ⟨rfl, ?_⟩
  intro s ha cl mcv cand dmp its aee hs hlen hmem
  have hne : cl ≠ [] := List.ne_nil_of_mem hmem
  have hA : effective_check_list ha cl = cl := effective_check_list_of_ne_nil hne
  have hparse : parse_session ((some s).getD "") = none := by
    rw [Option.getD_some]
    exact parse_session_none_of_length hlen
  rw [run_readiness_checks,
      run_readiness_checks_state_err ha cl mcv cand dmp its (some s) aee
        (hA.symm ▸ hmem) (strTruthy_some_of_ne hs) hparse]
  simp [Except.map, session_error_message]

/-- Claim C6 witness: a two-field session string raises the validation
error. -/
theorem C6_witness :
    ("10.10.10.10/8.8.8.8" : String) ≠ "" ∧
    (splitOnChar '/' "10.10.10.10/8.8.8.8").length ≠ 3 ∧
    "session_exist" ∈ ["session_exist"] ∧
    run_readiness_checks false ["session_exist"] none none .vnone none
        (some "10.10.10.10/8.8.8.8") none =
      .error "10.10.10.10/8.8.8.8 is not a valid session string. Must be source/destination/port." :=
  ⟨by decide, by decide, by decide,
   C6_parse_session_amended.2 "10.10.10.10/8.8.8.8" false ["session_exist"]
     none none .vnone none none (by decide) (by decide) (by decide)⟩

/-- Claim C8 witness: a concrete run with a clock-diff threshold of 2. -/
theorem C8_witness :
    (["planes_clock_sync"] : List String).count "planes_clock_sync" = 1 ∧
    run_readiness_checks false ["planes_clock_sync"] none none (.vint 2)
        none none none =
      .ok [Val.s "free_disk_space", planes_clock_sync_directive 2] ∧
    List.filter (mentions "planes_clock_sync")
        [Val.s "free_disk_space", planes_clock_sync_directive 2] =
      (if PyOptInt.isNonnegInt (.vint 2) then [planes_clock_sync_directive 2]
       else []) :=
  ⟨by decide, rfl,
   C8_planes_clock_sync false ["planes_clock_sync"] none none (.vint 2)
     none none none [Val.s "free_disk_space", planes_clock_sync_directive 2]
     (by decide) rfl⟩

/-- Claim C7 counterexample: the empty string is not a valid IPv4 address,
yet supplying it as the `arp_entry_exists` argument does not make the
command fail: Python truthiness short-circuits the validation, the
parameter is treated as absent, and the requested check is silently
dropped. -/
theorem C7_counterexample :
    is_ip_valid "" = false ∧
    command_run_readiness_checks false ["arp_entry_exists"] none none .vnone
        none none (some "") = .ok [Val.s "free_disk_space"] :=
  ⟨rfl, rfl⟩

/-- Claim C7 (amended): for every non-empty `arp_entry_exists` value, an
invalid IPv4 address makes the readiness-check command fail with an
input-validation error naming the value before any directive list is
produced; a valid address with `arp_entry_exists` in the check list yields
the parameterized directive `arp_entry_exist: ip` (evaluator-facing key
without the trailing `s`) in the command's output. -/
theorem C7_arp_validation_amended :
    (∀ (v : String) (ha : Bool) (cl : List String) (mcv cand : Option String)
        (dmp : PyOptInt) (its cse : Option String),
      v ≠ "" → is_ip_valid v = false →
      command_run_readiness_checks ha cl mcv cand dmp its cse (some v) =
        .error (v ++ " is not a valid IPv4 address.")) ∧
    (∀ (v : String) (ha : Bool) (cl : List String) (mcv cand : Option String)
        (dmp : PyOptInt) (its cse : Option String) (out : List Val),
      is_ip_valid v = true → "arp_entry_exists" ∈ cl →
      command_run_readiness_checks ha cl mcv cand dmp its cse (some v) = .ok out →
      arp_entry_exist_directive v ∈ out) := by
  constructor
  · intro v ha cl mcv cand dmp its cse hv hinv
    have hcond : (strTruthy (some v) && !is_ip_valid ((some v).getD "")) = true := by
      simp [strTruthy, hv, hinv]
    simp only [command_run_readiness_checks]
    rw [if_pos hcond]
    simp
  · intro v ha cl mcv cand dmp its cse out hval hmem hok
    have hv : v ≠ "" := by
      intro he
      subst he
      exact absurd hval (by decide)
    have hcond : (strTruthy (some v) && !is_ip_valid ((some v).getD "")) = false := by
      simp [hval]
    simp only [command_run_readiness_checks] at hok
    rw [hcond] at hok
    simp only [Bool.false_eq_true, if_false] at hok
    have hmem2 : "arp_entry_exists" ∈ renamed_check_list cl := mem_renamed_check_list hmem
    have hne : renamed_check_list cl ≠ [] := List.ne_nil_of_mem hmem2
    have hout := run_readiness_checks_ok_eq ha (renamed_check_list cl) mcv cand
      dmp its cse (some v) out hok
    rw [effective_check_list_of_ne_nil hne] at hout
    rw [hout]
    refine List.mem_append.mpr (Or.inr ?_)
    exact arp_mem_final_custom (renamed_check_list cl) mcv cand dmp its cse
      (some v) hmem2 (strTruthy_some_of_ne hv)

/-- Claim C7 witness: `999.1.1.1` is rejected with the validation error, and
`10.0.0.6` with `arp_entry_exists` requested yields the `arp_entry_exist`
directive. -/
theorem C7_witness :
    ("999.1.1.1" : String) ≠ "" ∧
    is_ip_valid "999.1.1.1" = false ∧
    command_run_readiness_checks false [] none none .vnone none none
        (some "999.1.1.1") = .error "999.1.1.1 is not a valid IPv4 address." ∧
    is_ip_valid "10.0.0.6" = true ∧
    "arp_entry_exists" ∈ ["arp_entry_exists"] ∧
    command_run_readiness_checks false ["arp_entry_exists"] none none .vnone
        none none (some "10.0.0.6") =
      .ok [Val.s "free_disk_space", arp_entry_exist_directive "10.0.0.6"] ∧
    arp_entry_exist_directive "10.0.0.6" ∈
      [Val.s "free_disk_space", arp_entry_exist_directive "10.0.0.6"] :=
  ⟨by decide, by decide,
   C7_arp_validation_amended.1 "999.1.1.1" false [] none none .vnone none none
     (by decide) (by decide),
   by decide, by decide, rfl,
   C7_arp_validation_amended.2 "10.0.0.6" false ["arp_entry_exists"] none none
     .vnone none none
     [Val.s "free_disk_space", arp_entry_exist_directive "10.0.0.6"]
     (by decide) (by decide) rfl⟩

theorem block_eq_mem (L : List String) (f : String → Val) (n : String) (X : List Val) :
    (if n ∈ L then X ++ [f n] else X)
      = X ++ ((List.filter (fun m => decide (m ∈ L)) [n]).map f) := by
  by_cases h : n ∈ L <;> simp [h, List.filter]

theorem compare_config_canonical (sl : List String) (t : PyOptInt) :
    compare_snapshots_config sl t =
      (canonical_snapshot_order.filter
        (fun n => decide (n ∈ (if sl.isEmpty then default_snapshot_list else sl)))).map
        (snapshot_directive t) := by
  simp only [compare_snapshots_config]
  generalize (if sl.isEmpty then default_snapshot_list else sl) = L
  have hsession : ∀ X : List Val,
      (if t.isPosInt then X ++ [session_stats_directive t.getInt]
       else X ++ [session_stats_directive 10]) =
      X ++ [session_stats_directive (threshold_value t)] := by
    intro X
    by_cases h : t.isPosInt <;> simp [h, threshold_value]
  rw [hsession,
      show nics_directive = snapshot_directive t "nics" from rfl,
      show routes_directive = snapshot_directive t "routes" from rfl,
      show license_directive = snapshot_directive t "license" from rfl,
      show arp_table_directive = snapshot_directive t "arp_table" from rfl,
      show Val.s "content_version" = snapshot_directive t "content_version" from rfl,
      show session_stats_directive (threshold_value t)
        = snapshot_directive t "session_stats" from rfl,
      show ip_sec_tunnels_directive = snapshot_directive t "ip_sec_tunnels" from rfl,
      show bgp_peers_directive = snapshot_directive t "bgp_peers" from rfl]
  rw [block_eq_mem L (snapshot_directive t), block_eq_mem L (snapshot_directive t),
      block_eq_mem L (snapshot_directive t), block_eq_mem L (snapshot_directive t),
      block_eq_mem L (snapshot_directive t), block_eq_mem L (snapshot_directive t),
      block_eq_mem L (snapshot_directive t), block_eq_mem L (snapshot_directive t)]
  rw [show canonical_snapshot_order
      = ["nics"] ++ (["routes"] ++ (["license"] ++ (["arp_table"]
        ++ (["content_version"] ++ (["session_stats"]
        ++ (["ip_sec_tunnels"] ++ ["bgp_peers"])))))) from rfl]
  simp only [List.filter_append, List.map_append, List.append_assoc, List.nil_append]

/-- Claim C4: the snapshot-comparison list built by `compare_snapshots` is
exactly the canonical order `nics, routes, license, arp_table,
content_version, session_stats, ip_sec_tunnels, bgp_peers` filtered by
membership in the (possibly defaulted) caller list and mapped to the fixed
directive for each identifier: one directive per present known identifier,
in canonical order regardless of the caller's order, and nothing for
unknown identifiers. -/
theorem C4_compare_snapshots_canonical (sl : List String) (t : PyOptInt) :
    compare_snapshots_config sl t =
      (canonical_snapshot_order.filter
        (fun n => decide (n ∈ (if sl.isEmpty then default_snapshot_list else sl)))).map
        (snapshot_directive t) :=
  compare_config_canonical sl t

/-- Claim C5: whenever `session_stats` is in the (possibly defaulted)
snapshot list, the comparison list contains exactly one `session_stats`
directive, with both `num-max` and `num-tcp` thresholds equal to the
supplied `session_stats_threshold` when it is a positive integer and to 10
otherwise (absent, zero, negative or wrongly-typed values fall back to 10;
`compare_snapshots_config` is total, so no input raises). -/
theorem C5_session_stats_thresholds (sl : List String) (t : PyOptInt)
    (hmem : "session_stats" ∈ (if sl.isEmpty then default_snapshot_list else sl)) :
    List.filter (mentions "session_stats") (compare_snapshots_config sl t) =
      [session_stats_directive (threshold_value t)] := by
  rw [compare_config_canonical, List.filter_map, List.filter_filter]
  simp only [List.isEmpty_eq_true] at hmem
  simp [canonical_snapshot_order, List.filter_cons, Function.comp,
        Bool.and_false, Bool.and_true, hmem, snapshot_directive]

/-- Claim C5 witness: the default snapshot list with threshold 25. -/
theorem C5_witness :
    "session_stats" ∈
      (if ([] : List String).isEmpty then default_snapshot_list else []) ∧
    List.filter (mentions "session_stats") (compare_snapshots_config [] (.vint 25)) =
      [session_stats_directive (threshold_value (.vint 25))] :=
  ⟨by decide, C5_session_stats_thresholds [] (.vint 25) (by decide)⟩

/-- Claim C9: both directive compilers are deterministic — two runs of
`run_readiness_checks` on identical inputs that return a directive list
return the same list, and `compare_snapshots_config` is a pure function of
its two arguments (the embedding carries no other state, mirroring the
source, which reads nothing but its arguments). -/
theorem C9_determinism (ha : Bool) (cl : List String) (mcv cand : Option String)
    (dmp : PyOptInt) (its cse aee : Option String) (out1 out2 : List Val)
    (sl : List String) (t : PyOptInt)
    (h1 : run_readiness_checks ha cl mcv cand dmp its cse aee = .ok out1)
    (h2 : run_readiness_checks ha cl mcv cand dmp its cse aee = .ok out2) :
    out1 = out2 ∧ compare_snapshots_config sl t = compare_snapshots_config sl t :=
  ⟨Except.ok.inj (h1.symm.trans h2), rfl⟩

/-- Claim C9 witness: two identical default runs produce the same list. -/
theorem C9_witness :
    run_readiness_checks false [] none none .vnone none none none =
      .ok [Val.s "panorama", Val.s "ntp_sync", Val.s "candidate_config",
           Val.s "active_support", Val.s "free_disk_space"] ∧
    ([Val.s "panorama", Val.s "ntp_sync", Val.s "candidate_config",
      Val.s "active_support", Val.s "free_disk_space"] : List Val) =
      [Val.s "panorama", Val.s "ntp_sync", Val.s "candidate_config",
       Val.s "active_support", Val.s "free_disk_space"] ∧
    compare_snapshots_config [] .vnone = compare_snapshots_config [] .vnone :=
  ⟨rfl,
   (C9_determinism false [] none none .vnone none none none _ _ [] .vnone rfl rfl).1,
   (C9_determinism false [] none none .vnone none none none _ _ [] .vnone rfl rfl).2⟩

end PanosAssurance
